import Mathlib

/-!
# Layouts and addresses of `notes.cpp`

`notes.cpp` holds two record declarations (`Encounter`, `Chip`), one
`static_assert`, and a handful of ROM addresses.  The declarations are embedded
as lists of typed fields in declaration order; the layout of a record is
computed by the usual natural-alignment rule of C for the two scalar types the
notes use.  The addresses are embedded as the numbers the notes write down.
-/

namespace Notes

/-! ## Data model -/

/-- Scalar types used by the declarations of `notes.cpp`. -/
inductive CType where
  | uint8_t
  | uint16_t
  deriving DecidableEq, Repr

/-- Width of a scalar type in bytes (`sizeof`). -/
def CType.size : CType → Nat
  | .uint8_t => 1
  | .uint16_t => 2

/-- Natural alignment of a scalar type in bytes (`alignof`). -/
def CType.align : CType → Nat
  | .uint8_t => 1
  | .uint16_t => 2

/-- One member declaration `ty name;` of a record. -/
structure Field where
  ty : CType
  name : String
  deriving DecidableEq, Repr

/-- Members of `struct Encounter`, in declaration order (notes.cpp lines 16-37). -/
def Encounter : List Field :=
  [ ⟨.uint8_t, "enounterIdx"⟩,
    ⟨.uint8_t, "unknown"⟩,
    ⟨.uint8_t, "unknown"⟩,
    ⟨.uint8_t, "unknown"⟩,
    ⟨.uint8_t, "unknown"⟩,
    ⟨.uint8_t, "navi"⟩,
    ⟨.uint8_t, "unknown"⟩,
    ⟨.uint8_t, "chipBottomFirst"⟩,
    ⟨.uint8_t, "chipTopFirst"⟩,
    ⟨.uint8_t, "chipBottomMiddle"⟩,
    ⟨.uint8_t, "chipMiddleMiddle"⟩,
    ⟨.uint8_t, "chipTopMiddle"⟩,
    ⟨.uint8_t, "chipBottomEnd"⟩,
    ⟨.uint8_t, "chip2End"⟩,
    ⟨.uint8_t, "chip3End"⟩,
    ⟨.uint8_t, "chip4End"⟩,
    ⟨.uint8_t, "chipSlotBot"⟩,
    ⟨.uint8_t, "chipSlotDown"⟩,
    ⟨.uint8_t, "slotBotThresh"⟩,
    ⟨.uint8_t, "slotTopThresh"⟩ ]

/-- Members of `struct Chip`, in declaration order (notes.cpp lines 41-55).
The two commented-out members `j` and `type/flags` are not members. -/
def Chip : List Field :=
  [ ⟨.uint16_t, "hp"⟩,
    ⟨.uint16_t, "effect_index"⟩,
    ⟨.uint16_t, "AP"⟩,
    ⟨.uint16_t, "MB"⟩,
    ⟨.uint16_t, "flags"⟩,
    ⟨.uint8_t, "rarity"⟩,
    ⟨.uint8_t, "a"⟩,
    ⟨.uint8_t, "b"⟩,
    ⟨.uint8_t, "c"⟩,
    ⟨.uint8_t, "index"⟩,
    ⟨.uint8_t, "e"⟩ ]

/-! ## Record layout (natural alignment) -/

/-- Smallest multiple of `a` that is at least `off`. -/
def alignUp (off a : Nat) : Nat :=
  (off + a - 1) / a * a

/-- Lay the members out one after another starting at byte `off`; each member
is placed at the next offset that is a multiple of its alignment. -/
def layoutFrom (off : Nat) : List Field → List (Field × Nat)
  | [] => []
  | f :: fs =>
    let o := alignUp off f.ty.align
    (f, o) :: layoutFrom (o + f.ty.size) fs

/-- Members of a record paired with their byte offsets. -/
def layout (fs : List Field) : List (Field × Nat) :=
  layoutFrom 0 fs

/-- First byte past the last member. -/
def endOffset (fs : List Field) : Nat :=
  (layout fs).foldl (fun e p => max e (p.2 + p.1.ty.size)) 0

/-- Alignment of a record: the largest alignment of a member. -/
def structAlign (fs : List Field) : Nat :=
  fs.foldl (fun a f => max a f.ty.align) 1

/-- The `sizeof` of a record: the end of the last member, rounded up to the
alignment of the record. -/
def sizeof (fs : List Field) : Nat :=
  alignUp (endOffset fs) (structAlign fs)

/-- Sum of the widths of the declared members. -/
def totalWidth (fs : List Field) : Nat :=
  (fs.map (fun f => f.ty.size)).sum

/-- Byte offsets of the members called `name` (there may be several: the
notes call five members of `Encounter` `unknown`). -/
def offsetsOf (fs : List Field) (name : String) : List Nat :=
  ((layout fs).filter (fun p => p.1.name == name)).map (fun p => p.2)

/-- Members of the layout whose span `[offset, offset + width)` holds byte `b`. -/
def covering (fs : List Field) (b : Nat) : List (Field × Nat) :=
  (layout fs).filter (fun p => decide (p.2 ≤ b ∧ b < p.2 + p.1.ty.size))

/-- The members declared before the first member called `name`. -/
def fieldsBefore (fs : List Field) (name : String) : List Field :=
  fs.takeWhile (fun f => f.name != name)

/-- The members from the first one called `name` on. -/
def fieldsFrom (fs : List Field) (name : String) : List Field :=
  fs.dropWhile (fun f => f.name != name)

/-- The assertion of notes.cpp line 38, `static_assert(sizeof(Encounter) == 20)`. -/
def Encounter_static_assert : Bool :=
  sizeof Encounter == 20

/-! ## Addresses written in the notes -/

/-- Line 15, `// Encounter array: 0x229900`. -/
def encounterArray : Nat := 0x229900

/-- Line 40, `// Chip array: 0x22741c`. -/
def chipArray : Nat := 0x22741c

/-- Line 58, `chipBase 0822740c`. -/
def chipBase : Nat := 0x0822740c

/-- Line 59, `chipNameTextPtrArray 0822bb8c`. -/
def chipNameTextPtrArray : Nat := 0x0822bb8c

/-- Line 60, `chipDescArray (Select Desc) 0822c35c`. -/
def chipDescArray : Nat := 0x0822c35c

/-- Line 61, `OperatorName 0822d69c`. -/
def OperatorName : Nat := 0x0822d69c

/-- Line 65, `0xe9c20`, the first address under `HrtFlash`. -/
def hrtFlashFirst : Nat := 0xe9c20

/-- Line 66, `0xefdc2`, the second address under `HrtFlash`. -/
def hrtFlashSecond : Nat := 0xefdc2

/-- The four addresses of the label list of lines 58-61. -/
def labelledAddresses : List Nat :=
  [chipBase, chipNameTextPtrArray, chipDescArray, OperatorName]

/-- Every address the notes write down, in the order of the file. -/
def notedAddresses : List Nat :=
  [encounterArray, chipArray, chipBase, chipNameTextPtrArray, chipDescArray,
   OperatorName, hrtFlashFirst, hrtFlashSecond]

/-! ## Element codes -/

/-- The five elements named in the comment of line 47. -/
inductive Element where
  | Normal
  | Fire
  | Aqua
  | Wood
  | Elec
  deriving DecidableEq, Repr

/-- The code table of line 47,
`0 -> Normal, 10 -> Fire, 20 -> Aqua, 30 -> Wood, 40 -> Elec`,
the codes read as hexadecimal byte values like the other byte values of the
notes (`5A 00`, `3F`). -/
def typeCodes : List (Nat × Element) :=
  [(0x0, .Normal), (0x10, .Fire), (0x20, .Aqua), (0x30, .Wood), (0x40, .Elec)]

/-- Modelled from the spec: the element numbering of the Chip table,
"0 Normal, 1 Fire, 2 Aqua, 3 Wood, 4 Elec"; the notes give names only. -/
def Element.number : Element → Nat
  | .Normal => 0
  | .Fire => 1
  | .Aqua => 2
  | .Wood => 3
  | .Elec => 4

/-! ## The extractor of the specification

The notes hold no executable code; the pieces below are the parts of the
extractor the specification describes that the statements refer to. -/

/-- Modelled from the spec: the byte mask of the image section, "an offset
into the buffer equals `(address & 0x01FFFFFF)`"; the notes hold no resolver. -/
def bufferOffset (a : Nat) : Nat :=
  a &&& 0x01FFFFFF

/-- Modelled from the spec: the test `(a >> 24) ∈ {0x08, 0x09}` of the pointer
resolver; the notes hold no resolver. -/
def isCartridge (a : Nat) : Bool :=
  a >>> 24 == 0x08 || a >>> 24 == 0x09

/-- Modelled from the spec: the error kinds of the error handling section; the
notes hold no extractor. -/
inductive ExtractError where
  | BadImage
  | BadPointer
  | BadLayout
  | UnterminatedString
  deriving DecidableEq, Repr

/-- Modelled from the spec: the pointer resolver, "given a 32-bit cartridge
address `a`, return the offset `a & 0x01FFFFFF` if `(a >> 24) ∈ {0x08, 0x09}`
and the offset is within the image; otherwise fail with `BadPointer`"; the
notes hold no resolver.  `imageSize` is the length of the image in bytes. -/
def resolve (imageSize a : Nat) : Except ExtractError Nat :=
  if isCartridge a && decide (bufferOffset a < imageSize) then
    .ok (bufferOffset a)
  else
    .error .BadPointer

/-- Modelled from the spec: the encounter base of the Encounter section,
"cartridge address `0x08229900`"; the notes write the offset `0x229900` only. -/
def encounterBase : Nat := 0x08229900

/-- Modelled from the spec: the default of `--encounters-base`. -/
def defaultEncountersBase : Nat := 0x229900

/-- Modelled from the spec: the default of `--chips-base`. -/
def defaultChipsBase : Nat := 0x22740c

/-- Modelled from the spec: the default of `--chip-stride`. -/
def defaultChipStride : Nat := 16

/-- Modelled from the spec: the default of `--chip-name-ptrs`. -/
def defaultChipNamePtrs : Nat := 0x22bb8c

/-- Modelled from the spec: the default of `--chip-desc-ptrs`. -/
def defaultChipDescPtrs : Nat := 0x22c35c

/-- Modelled from the spec: the default of `--operator-name`. -/
def defaultOperatorName : Nat := 0x22d69c

/-! ## Record layouts -/

/-- C1: the assertion `static_assert(sizeof(Encounter) == 20)` holds: the
record is 20 members, each a `uint8_t`, laid out without padding (its size is
the sum of the member widths), and its size is 20 bytes. -/
theorem encounter_sizeof_twenty :
    Encounter_static_assert = true ∧
    Encounter.length = 20 ∧
    (∀ f ∈ Encounter, f.ty = CType.uint8_t ∧ f.ty.size = 1) ∧
    sizeof Encounter = totalWidth Encounter ∧
    sizeof Encounter = 20 := by
  refine ⟨by decide, by decide, by decide, by decide, by decide⟩

/-- At the member `navi` the statement of C1 gives type `uint8_t`, width 1. -/
theorem encounter_sizeof_twenty_witness :
    (⟨CType.uint8_t, "navi"⟩ : Field).ty = CType.uint8_t ∧
    (⟨CType.uint8_t, "navi"⟩ : Field).ty.size = 1 :=
  encounter_sizeof_twenty.2.2.1 ⟨CType.uint8_t, "navi"⟩ (by decide)

/-- C2: in the layout of `Encounter` every member sits at the offset of the
table: `enounterIdx` 0, `navi` 5, `chipBottomFirst` 7 up to `slotTopThresh`
19, the five `unknown` members at 1, 2, 3, 4 and 6; every member is one byte
wide, every member lies inside `[0, 20)`, and every byte of `[0, 20)` belongs
to exactly one member (the members are pairwise disjoint and cover the
record). -/
theorem encounter_field_offsets :
    (layout Encounter).map (fun p => (p.1.name, p.2)) =
      [("enounterIdx", 0), ("unknown", 1), ("unknown", 2), ("unknown", 3),
       ("unknown", 4), ("navi", 5), ("unknown", 6), ("chipBottomFirst", 7),
       ("chipTopFirst", 8), ("chipBottomMiddle", 9), ("chipMiddleMiddle", 10),
       ("chipTopMiddle", 11), ("chipBottomEnd", 12), ("chip2End", 13),
       ("chip3End", 14), ("chip4End", 15), ("chipSlotBot", 16),
       ("chipSlotDown", 17), ("slotBotThresh", 18), ("slotTopThresh", 19)] ∧
    offsetsOf Encounter "unknown" = [1, 2, 3, 4, 6] ∧
    (∀ p ∈ layout Encounter, p.1.ty.size = 1 ∧ p.2 + p.1.ty.size ≤ 20) ∧
    (∀ b, b < 20 → (covering Encounter b).length = 1) := by
  refine ⟨by decide, by decide, by decide, ?_⟩
  intro b hb
  have h : ∀ c : Fin 20, (covering Encounter c.val).length = 1 := by decide
  exact h ⟨b, hb⟩

/-- Byte 6 of an `Encounter` belongs to exactly one member. -/
theorem encounter_field_offsets_witness :
    (covering Encounter 6).length = 1 :=
  encounter_field_offsets.2.2.2 6 (by decide)

/-- C3: in the layout of `Chip` every member sits at the offset of the table:
`hp` 0, `effect_index` 2, `AP` 4, `MB` 6, `flags` 8 (two bytes each), `rarity`
10, `a` 11, `b` 12, `c` 13, `index` 14, `e` 15 (one byte each); every 16-bit
member is at an even offset, no padding is inserted (the size is the sum of
the member widths), and the record spans the default stride of 16 bytes. -/
theorem chip_field_offsets :
    (layout Chip).map (fun p => (p.1.name, p.1.ty.size, p.2)) =
      [("hp", 2, 0), ("effect_index", 2, 2), ("AP", 2, 4), ("MB", 2, 6),
       ("flags", 2, 8), ("rarity", 1, 10), ("a", 1, 11), ("b", 1, 12),
       ("c", 1, 13), ("index", 1, 14), ("e", 1, 15)] ∧
    (∀ p ∈ layout Chip, p.1.ty = CType.uint16_t → p.2 % 2 = 0) ∧
    sizeof Chip = totalWidth Chip ∧
    sizeof Chip = 16 ∧
    sizeof Chip = defaultChipStride := by
  refine ⟨by decide, by decide, by decide, by decide, by decide⟩

/-- The 16-bit member `flags` of `Chip` sits at the even offset 8. -/
theorem chip_field_offsets_witness :
    ((⟨CType.uint16_t, "flags"⟩, 8) : Field × Nat).2 % 2 = 0 :=
  chip_field_offsets.2.1 (⟨CType.uint16_t, "flags"⟩, 8) (by decide) rfl

/-- C4, as stated, fails: the `Chip` record is not 14 bytes, the members
declared before the art index `index` do not occupy 12 bytes, and the declared
member widths do not total 14. -/
theorem chip_not_fourteen_bytes :
    sizeof Chip ≠ 14 ∧
    totalWidth (fieldsBefore Chip "index") ≠ 12 ∧
    totalWidth Chip ≠ 14 := by
  refine ⟨by decide, by decide, by decide⟩

/-- C4, amended: the `Chip` record is 16 bytes: the members declared before
the art index `index` and the palette index `e` occupy 14 bytes, and those two
trailing one-byte members bring the total of the declared widths to 16. -/
theorem chip_sixteen_bytes :
    sizeof Chip = 16 ∧
    (fieldsBefore Chip "index").map (fun f => f.name) =
      ["hp", "effect_index", "AP", "MB", "flags", "rarity", "a", "b", "c"] ∧
    totalWidth (fieldsBefore Chip "index") = 14 ∧
    (fieldsFrom Chip "index").map (fun f => (f.name, f.ty.size)) =
      [("index", 1), ("e", 1)] ∧
    totalWidth (fieldsFrom Chip "index") = 2 ∧
    totalWidth Chip = 16 := by
  refine ⟨by decide, by decide, by decide, by decide, by decide, by decide⟩

/-! ## Element codes -/

/-- C5, as stated, fails: the notes give Fire the code hexadecimal 10, whose
low nibble `0x10 & 0xF` is 0, while Fire has number 1; so the low nibble of a
code is not the number of its element for all five codes. -/
theorem element_low_nibble_fails :
    (0x10, Element.Fire) ∈ typeCodes ∧
    (0x10 : Nat) &&& 0xF = 0 ∧
    Element.Fire.number = 1 ∧
    ¬ (∀ p ∈ typeCodes, p.1 &&& 0xF = p.2.number) := by
  refine ⟨by decide, by decide, by decide, by decide⟩

/-- C5, amended: for each of the five element codes the notes record
(hexadecimal 0, 10, 20, 30, 40 for Normal, Fire, Aqua, Wood, Elec) the number
of the element (0 Normal, 1 Fire, 2 Aqua, 3 Wood, 4 Elec) is the high nibble of
the code, `(code >> 4) & 0xF`, and the low nibble `code & 0xF` is 0. -/
theorem element_high_nibble (p : Nat × Element) (hp : p ∈ typeCodes) :
    (p.1 >>> 4) &&& 0xF = p.2.number ∧ p.1 &&& 0xF = 0 := by
  have h : ∀ q ∈ typeCodes, (q.1 >>> 4) &&& 0xF = q.2.number ∧ q.1 &&& 0xF = 0 := by
    decide
  exact h p hp

/-- The code hexadecimal 10 of Fire has high nibble 1 and low nibble 0. -/
theorem element_high_nibble_witness :
    (0x10, Element.Fire) ∈ typeCodes ∧
    (((0x10 : Nat) >>> 4) &&& 0xF = Element.Fire.number ∧ (0x10 : Nat) &&& 0xF = 0) :=
  ⟨by decide, element_high_nibble (0x10, Element.Fire) (by decide)⟩

/-! ## Pointer resolver -/

/-- The mask `0x01FFFFFF` keeps the low 25 bits. -/
theorem bufferOffset_eq_mod (a : Nat) : bufferOffset a = a % 2 ^ 25 := by
  unfold bufferOffset
  exact Nat.and_pow_two_sub_one_eq_mod a 25

/-- The cartridge test in terms of division. -/
theorem isCartridge_iff (a : Nat) :
    isCartridge a = true ↔ a / 2 ^ 24 = 8 ∨ a / 2 ^ 24 = 9 := by
  simp [isCartridge, Nat.shiftRight_eq_div_pow]

/-- On a cartridge address the mask subtracts `0x08000000`. -/
theorem bufferOffset_cartridge (a : Nat) (h : isCartridge a = true) :
    bufferOffset a = a - 0x08000000 := by
  rw [bufferOffset_eq_mod]
  have h2 := (isCartridge_iff a).1 h
  norm_num at h2 ⊢
  omega

/-- What the resolver returns when it returns an offset. -/
theorem resolve_eq_ok (imageSize a o : Nat) :
    resolve imageSize a = .ok o ↔
      isCartridge a = true ∧ bufferOffset a < imageSize ∧ o = bufferOffset a := by
  unfold resolve
  by_cases h1 : isCartridge a = true <;> by_cases h2 : bufferOffset a < imageSize <;>
    simp [h1, h2, eq_comm]

/-- C6, as stated, fails: `chipBase` has top byte `0x08`, and on an image of
1024 bytes the resolver fails with `BadPointer` instead of returning
`chipBase & 0x01FFFFFF`. -/
theorem resolve_small_image_fails :
    chipBase >>> 24 = 0x08 ∧
    resolve 1024 chipBase = Except.error ExtractError.BadPointer ∧
    resolve 1024 chipBase ≠ Except.ok (chipBase &&& 0x01FFFFFF) := by
  have h : resolve 1024 chipBase = Except.error ExtractError.BadPointer := by
    unfold resolve
    rw [if_neg (by decide)]
  refine ⟨by decide, h, ?_⟩
  rw [h]
  intro c
  cases c

/-- C6, amended: for every address `a` whose top byte `a >> 24` is `0x08` or
`0x09` and whose offset `a & 0x01FFFFFF` lies within the image, the resolver
returns `a & 0x01FFFFFF`, which equals `a - 0x08000000`; two addresses of the
cartridge range with the same result are equal; and on every image that
holds the offsets, the addresses of the notes resolve to the defaults of the
command line: `0x0822740c` to `0x22740c`, `0x0822bb8c` to `0x22bb8c`,
`0x0822c35c` to `0x22c35c`, `0x0822d69c` to `0x22d69c`, and the encounter
base `0x08229900` to the encounter array offset `0x229900` of the notes. -/
theorem resolve_cartridge_in_image (imageSize a b : Nat)
    (ha : a >>> 24 = 0x08 ∨ a >>> 24 = 0x09)
    (hin : a &&& 0x01FFFFFF < imageSize)
    (hb : b >>> 24 = 0x08 ∨ b >>> 24 = 0x09) :
    resolve imageSize a = Except.ok (a &&& 0x01FFFFFF) ∧
    a &&& 0x01FFFFFF = a - 0x08000000 ∧
    (resolve imageSize b = resolve imageSize a → b = a) ∧
    (0x22d69c < imageSize →
      resolve imageSize chipBase = Except.ok 0x22740c ∧
      resolve imageSize chipNameTextPtrArray = Except.ok 0x22bb8c ∧
      resolve imageSize chipDescArray = Except.ok 0x22c35c ∧
      resolve imageSize OperatorName = Except.ok 0x22d69c ∧
      resolve imageSize encounterBase = Except.ok encounterArray ∧
      [defaultChipsBase, defaultChipNamePtrs, defaultChipDescPtrs,
        defaultOperatorName, defaultEncountersBase] =
        [0x22740c, 0x22bb8c, 0x22c35c, 0x22d69c, encounterArray]) := by
  have ca : isCartridge a = true := by
    rw [isCartridge_iff]; simpa [Nat.shiftRight_eq_div_pow] using ha
  have cb : isCartridge b = true := by
    rw [isCartridge_iff]; simpa [Nat.shiftRight_eq_div_pow] using hb
  have hra : resolve imageSize a = Except.ok (bufferOffset a) :=
    (resolve_eq_ok imageSize a _).2 ⟨ca, hin, rfl⟩
  refine ⟨hra, bufferOffset_cartridge a ca, ?_, ?_⟩
  · intro h
    rw [hra] at h
    have hb3 := ((resolve_eq_ok imageSize b _).1 h).2.2
    have e1 := bufferOffset_cartridge a ca
    have e2 := bufferOffset_cartridge b cb
    have d1 := (isCartridge_iff a).1 ca
    have d2 := (isCartridge_iff b).1 cb
    norm_num at d1 d2 e1 e2
    omega
  · intro hs
    have k : ∀ x o : Nat, isCartridge x = true → bufferOffset x = o → o ≤ 0x22d69c →
        resolve imageSize x = Except.ok o := by
      intro x o hx ho hle
      exact (resolve_eq_ok imageSize x o).2 ⟨hx, by omega, ho.symm⟩
    exact ⟨k _ _ (by decide) (by decide) (by decide), k _ _ (by decide) (by decide) (by decide),
      k _ _ (by decide) (by decide) (by decide), k _ _ (by decide) (by decide) (by decide),
      k _ _ (by decide) (by decide) (by decide), by decide⟩

/-- On an image of 32 MiB the address `0x0822bb8c` resolves to `0x22bb8c`,
which is `0x0822bb8c - 0x08000000`. -/
theorem resolve_cartridge_in_image_witness :
    (0x0822bb8c : Nat) >>> 24 = 0x08 ∧
    (0x0822bb8c : Nat) &&& 0x01FFFFFF < 0x02000000 ∧
    resolve 0x02000000 0x0822bb8c = Except.ok 0x22bb8c ∧
    (0x0822bb8c : Nat) &&& 0x01FFFFFF = 0x0822bb8c - 0x08000000 ∧
    (resolve 0x02000000 chipBase = Except.ok 0x22740c ∧
      resolve 0x02000000 encounterBase = Except.ok encounterArray) := by
  have h := resolve_cartridge_in_image 0x02000000 0x0822bb8c 0x0822740c
    (by decide) (by decide) (by decide)
  have h4 := h.2.2.2 (by decide)
  exact ⟨by decide, by decide, h.1, h.2.1, h4.1, h4.2.2.2.2.1⟩

/-! ## Addresses of the notes -/

/-- C7, as stated, fails: the encounter array address `0x229900` of the notes
has high byte 0, so not every recorded address has high byte `0x08` or
`0x09`. -/
theorem noted_addresses_not_all_cartridge :
    encounterArray ∈ notedAddresses ∧
    encounterArray >>> 24 = 0 ∧
    ¬ (∀ a ∈ notedAddresses, a >>> 24 = 0x08 ∨ a >>> 24 = 0x09) := by
  refine ⟨by decide, by decide, by decide⟩

/-- C7, amended: of the eight addresses the notes record, the four of the
label list (`chipBase 0822740c`, `chipNameTextPtrArray 0822bb8c`,
`chipDescArray 0822c35c`, `OperatorName 0822d69c`) are absolute cartridge
addresses with high byte `0x08`; the other four (`0x229900`, `0x22741c`,
`0xe9c20`, `0xefdc2`) have high byte 0 and are buffer offsets already: they
lie below `0x02000000` and the mask `0x01FFFFFF` leaves them unchanged. -/
theorem noted_addresses_split (a : Nat) (ha : a ∈ notedAddresses) :
    (a ∈ labelledAddresses → a >>> 24 = 0x08) ∧
    (a ∉ labelledAddresses →
      a ∈ [0x229900, 0x22741c, 0xe9c20, 0xefdc2] ∧ a >>> 24 = 0 ∧
      a < 0x02000000 ∧ a &&& 0x01FFFFFF = a) ∧
    notedAddresses.filter (fun x => x >>> 24 == 0x08 || x >>> 24 == 0x09) =
      labelledAddresses ∧
    labelledAddresses = [0x0822740c, 0x0822bb8c, 0x0822c35c, 0x0822d69c] := by
  have h : ∀ x ∈ notedAddresses,
      (x ∈ labelledAddresses → x >>> 24 = 0x08) ∧
      (x ∉ labelledAddresses →
        x ∈ [0x229900, 0x22741c, 0xe9c20, 0xefdc2] ∧ x >>> 24 = 0 ∧
        x < 0x02000000 ∧ x &&& 0x01FFFFFF = x) := by
    decide
  exact ⟨(h a ha).1, (h a ha).2, by decide, by decide⟩

/-- The chip array address `0x22741c` is outside the label list, has high
byte 0 and is unchanged by the mask. -/
theorem noted_addresses_split_witness :
    chipArray ∈ notedAddresses ∧ chipArray ∉ labelledAddresses ∧
    chipArray >>> 24 = 0 ∧ chipArray &&& 0x01FFFFFF = chipArray :=
  have h := (noted_addresses_split chipArray (by decide)).2.1 (by decide)
  ⟨by decide, by decide, h.2.1, h.2.2.2⟩

/-- C8, as stated, fails: the chip-array offset written beside the `Chip`
layout is `0x22741c`, the buffer offset of `chipBase` is `0x22740c`, and the
two differ. -/
theorem chip_array_not_chip_base :
    chipArray = 0x22741c ∧
    chipBase &&& 0x01FFFFFF = 0x22740c ∧
    chipArray ≠ chipBase &&& 0x01FFFFFF := by
  refine ⟨by decide, by decide, by decide⟩

/-- C8, amended: the chip table has one known base, `chipBase 0822740c`,
whose buffer offset `0x0822740C & 0x01FFFFFF = 0x22740c` is the default of
`--chips-base`; the chip-array offset the notes record beside the `Chip`
layout is `0x22741c`, which is 16 bytes above that offset. -/
theorem chip_base_offset :
    chipBase = 0x0822740C ∧
    chipBase &&& 0x01FFFFFF = 0x22740c ∧
    chipBase &&& 0x01FFFFFF = defaultChipsBase ∧
    chipArray = 0x22741c ∧
    chipArray = (chipBase &&& 0x01FFFFFF) + 16 := by
  refine ⟨by decide, by decide, by decide, by decide, by decide⟩

/-- C9: the two chip-table addresses of the notes differ by one `Chip`
record: `0x22741c - (0x0822740c & 0x01FFFFFF) = 16`, the sum of the declared
`Chip` widths; under base `0x22740c` the offset `0x22741c` is the start of
record 1 for stride 16 and the start of no record for stride 14. -/
theorem chip_array_is_record_one :
    chipArray - (chipBase &&& 0x01FFFFFF) = 16 ∧
    totalWidth Chip = 16 ∧
    chipBase &&& 0x01FFFFFF = 0x22740c ∧
    0x22740c + 1 * 16 = chipArray ∧
    (∀ i, 0x22740c + i * 16 = chipArray ↔ i = 1) ∧
    (∀ i, 0x22740c + i * 14 ≠ chipArray) := by
  have h : chipArray = 0x22741c := by decide
  refine ⟨by decide, by decide, by decide, by decide, ?_, ?_⟩
  · intro i
    rw [h]
    omega
  · intro i
    rw [h]
    omega

/-- C10: the tables sit in the order chip table, encounter array, chip name
pointer array, chip description pointer array, operator name; `n` chips of 16
bytes and `n` pointers of 4 bytes in each pointer array stay clear of the next
table exactly when `n ≤ 500`: `0x22740c + 16*n ≤ 0x229900`,
`0x22bb8c + 4*n ≤ 0x22c35c` and `0x22c35c + 4*n ≤ 0x22d69c`; the gap between
the two pointer arrays is 2000 bytes, 500 pointers of 4 bytes. -/
theorem table_regions (n : Nat) :
    (chipBase &&& 0x01FFFFFF < encounterArray ∧
      encounterArray < chipNameTextPtrArray &&& 0x01FFFFFF ∧
      chipNameTextPtrArray &&& 0x01FFFFFF < chipDescArray &&& 0x01FFFFFF ∧
      chipDescArray &&& 0x01FFFFFF < OperatorName &&& 0x01FFFFFF) ∧
    ([chipBase &&& 0x01FFFFFF, encounterArray, chipNameTextPtrArray &&& 0x01FFFFFF,
        chipDescArray &&& 0x01FFFFFF, OperatorName &&& 0x01FFFFFF] =
      [0x22740c, 0x229900, 0x22bb8c, 0x22c35c, 0x22d69c]) ∧
    sizeof Chip = 16 ∧
    ((0x22740c + 16 * n ≤ 0x229900 ∧ 0x22bb8c + 4 * n ≤ 0x22c35c ∧
        0x22c35c + 4 * n ≤ 0x22d69c) ↔ n ≤ 500) ∧
    (((chipBase &&& 0x01FFFFFF) + sizeof Chip * n ≤ encounterArray ∧
        (chipNameTextPtrArray &&& 0x01FFFFFF) + 4 * n ≤ chipDescArray &&& 0x01FFFFFF ∧
        (chipDescArray &&& 0x01FFFFFF) + 4 * n ≤ OperatorName &&& 0x01FFFFFF) ↔
      n ≤ 500) ∧
    (chipDescArray &&& 0x01FFFFFF) - (chipNameTextPtrArray &&& 0x01FFFFFF) = 2000 ∧
    2000 = 500 * 4 := by
  have e1 : chipBase &&& 0x01FFFFFF = 0x22740c := by decide
  have e2 : encounterArray = 0x229900 := by decide
  have e3 : chipNameTextPtrArray &&& 0x01FFFFFF = 0x22bb8c := by decide
  have e4 : chipDescArray &&& 0x01FFFFFF = 0x22c35c := by decide
  have e5 : OperatorName &&& 0x01FFFFFF = 0x22d69c := by decide
  have e6 : sizeof Chip = 16 := by decide
  refine ⟨by decide, by decide, by decide, by omega, ?_, by decide, by decide⟩
  rw [e1, e2, e3, e4, e5, e6]
  omega

/-- With 500 chips every table ends at or before the start of the next one. -/
theorem table_regions_witness :
    0x22740c + 16 * 500 ≤ 0x229900 ∧ 0x22bb8c + 4 * 500 ≤ 0x22c35c ∧
      0x22c35c + 4 * 500 ≤ 0x22d69c :=
  (table_regions 500).2.2.2.1.2 (by decide)

end Notes
